import Mathlib

/-!
Verification of the Submission Orchestrator (`src/docker/server.py`) against its
natural-language specification.  The Python module is shallowly embedded: the
admission registry (module-level dicts guarded by one lock) becomes a record of
finite maps, the phase runners become pure functions over an environment that
supplies the outcome of the one subprocess interaction (spawn / exit code /
drained output / timeout), and the SSE transport becomes an explicit trace of
attempted writes.  Machine-level concerns that the claims do not touch (JSON
text, regexes, real clocks, file descriptors) are represented by their parsed
results, as noted at each definition.
-/

/-! ## Character/string helpers

Python string primitives used by the server (`str.endswith`, `str.lower`,
`str.strip`, `in`, slicing) are modelled over `String.data` so that every
definition evaluates inside the kernel. -/

/-- Lower-casing of one ASCII character (model of Python `str.lower` per char). -/
def myCharLower (c : Char) : Char :=
  if 65 ≤ c.toNat ∧ c.toNat ≤ 90 then Char.ofNat (c.toNat + 32) else c

/-- Model of Python `str.lower`. -/
def strLower (s : String) : String := String.mk (s.data.map myCharLower)

/-- Whitespace test used by `strip`. -/
def wsChar (c : Char) : Bool := c = ' ' || c = '\t' || c = '\n' || c = '\r'

/-- Model of Python `str.strip()`. -/
def strStrip (s : String) : String :=
  String.mk (((s.data.dropWhile wsChar).reverse.dropWhile wsChar).reverse)

/-- Helper for substring search: does `pat` start the second list? -/
def seqStarts : List Char → List Char → Bool
  | [], _ => true
  | _ :: _, [] => false
  | a :: as, b :: bs => a = b && seqStarts as bs

/-- Helper for substring search: does `pat` occur anywhere in the list? -/
def seqSearch (pat : List Char) : List Char → Bool
  | [] => seqStarts pat []
  | b :: bs => seqStarts pat (b :: bs) || seqSearch pat bs

/-- Model of Python `pat in s` for strings. -/
def strHasSub (s pat : String) : Bool := seqSearch pat.data s.data

/-- Model of Python `str.endswith`. -/
def strEndsWith (s suffix : String) : Bool := suffix.data.isSuffixOf s.data

/-- Model of Python slicing `s[:n]`. -/
def takeChars (n : Nat) (s : String) : String := String.mk (s.data.take n)

/-- Python truthiness of an optional string (absent or empty is falsy). -/
def truthy : Option String → Bool
  | none => false
  | some s => s ≠ ""

/-! ## Admission registry (`server.py` lines 37-121)

The two module-level dicts `_active_requests_by_project` and
`_request_to_project` are embedded as functions into `Option`; the
`threading.Lock` disappears because every registry operation is modelled as one
atomic state transformation, exactly the granularity the lock provides.  A
`threading.Event` handle is the `cancelled` flag of its record, and a `Popen`
handle is reduced to whether `poll()` still reports the child as running. -/

/-- Model of a `subprocess.Popen` handle: all the registry reads from it is
`poll() is None`, i.e. whether the child is still running. -/
structure Proc where
  running : Bool
deriving DecidableEq

/-- One value of `_active_requests_by_project` (server.py line 40). -/
structure ActiveRecord where
  request_id : String
  project_name : String
  proc : Option Proc
  cancelled : Bool
deriving DecidableEq

/-- The registry state: both module-level dicts. -/
structure RegistryState where
  byProject : String → Option ActiveRecord
  reqToProject : String → Option String

/-- The registry state at server start: both dicts empty. -/
def emptyRegistry : RegistryState :=
  { byProject := fun _ => none, reqToProject := fun _ => none }

/-- Pointwise update of a string-keyed map. -/
def mapUpd {α : Type} (m : String → Option α) (k : String) (v : α) :
    String → Option α :=
  fun x => if x = k then some v else m x

/-- Pointwise deletion from a string-keyed map. -/
def mapDel {α : Type} (m : String → Option α) (k : String) :
    String → Option α :=
  fun x => if x = k then none else m x

/-- Conflict record returned by `try_register_request` (server.py lines 57-69). -/
structure Conflict where
  reason : String
  request_id : String
  project_name : String
deriving DecidableEq

/-- Project-name normalisation `project_name or "toml"` (server.py line 52). -/
def registry_project (project_name : String) : String :=
  if project_name = "" then "toml" else project_name

/-- Embedding of `try_register_request` (server.py lines 45-79).  Success is
`none` in the first component (the Python function returns the fresh
`threading.Event`, modelled by the `cancelled := false` field of the record
installed in the state). -/
def try_register_request (s : RegistryState) (project_name request_id : String) :
    Option Conflict × RegistryState :=
  let pn := registry_project project_name
  match s.byProject pn with
  | some existing => (some ⟨"project_busy", existing.request_id, pn⟩, s)
  | none =>
    match s.reqToProject request_id with
    | some existing_project =>
      (some ⟨"request_id_busy", request_id, existing_project⟩, s)
    | none =>
      (none,
        { s with
          byProject := mapUpd s.byProject pn
            ⟨request_id, pn, none, false⟩,
          reqToProject := mapUpd s.reqToProject request_id pn })

/-- Embedding of `register_process` (server.py lines 82-91). -/
def register_process (s : RegistryState) (request_id : String) (proc : Proc) :
    RegistryState :=
  match s.reqToProject request_id with
  | none => s
  | some pn =>
    match s.byProject pn with
    | some active =>
      if active.request_id = request_id then
        { s with byProject := mapUpd s.byProject pn { active with proc := some proc } }
      else s
    | none => s

/-- Embedding of `unregister_request` (server.py lines 93-101). -/
def unregister_request (s : RegistryState) (request_id : String) : RegistryState :=
  match s.reqToProject request_id with
  | none => s
  | some pn =>
    let s1 : RegistryState := { s with reqToProject := mapDel s.reqToProject request_id }
    match s1.byProject pn with
    | some active =>
      if active.request_id = request_id then
        { s1 with byProject := mapDel s1.byProject pn }
      else s1
    | none => s1

/-- Embedding of `cancel_request` (server.py lines 104-121).  Setting the
`threading.Event` is the `cancelled := true` update; the graceful termination
performed outside the lock leaves the child no longer running. -/
def cancel_request (s : RegistryState) (request_id : String) :
    String × RegistryState :=
  match s.reqToProject request_id with
  | none => ("not_found", s)
  | some pn =>
    match s.byProject pn with
    | none => ("not_found", s)
    | some active =>
      if active.request_id ≠ request_id then ("not_found", s)
      else
        match active.proc with
        | some pr =>
          if pr.running then
            let a' : ActiveRecord := { active with cancelled := true, proc := some ⟨false⟩ }
            ("cancelled", { s with byProject := mapUpd s.byProject pn a' })
          else
            let a' : ActiveRecord := { active with cancelled := true }
            ("no_process", { s with byProject := mapUpd s.byProject pn a' })
        | none =>
          let a' : ActiveRecord := { active with cancelled := true }
          ("no_process", { s with byProject := mapUpd s.byProject pn a' })

/-- Agreement invariant between the two registry dicts: `request_id ↦ project`
is recorded in `_request_to_project` exactly when the project-indexed dict
holds an active record carrying that request id. -/
def RegistryInv (s : RegistryState) : Prop :=
  ∀ rid pn, s.reqToProject rid = some pn ↔
    ∃ rec, s.byProject pn = some rec ∧ rec.request_id = rid

/-- States reachable from the empty registry through the four operations. -/
inductive Reachable : RegistryState → Prop
  | empty : Reachable emptyRegistry
  | register (s : RegistryState) (pn rid : String) :
      Reachable s → Reachable (try_register_request s pn rid).2
  | attach (s : RegistryState) (rid : String) (p : Proc) :
      Reachable s → Reachable (register_process s rid p)
  | unregister (s : RegistryState) (rid : String) :
      Reachable s → Reachable (unregister_request s rid)
  | cancel (s : RegistryState) (rid : String) :
      Reachable s → Reachable (cancel_request s rid).2

/-! ## Workspace materialisation (`copy_project`, server.py lines 228-298)

The destination tree is embedded as a flat list of files; a file records its
directory components (relative to the destination root), its base name and its
content.  Directories exist implicitly.  The two deletion passes of the source
reduce, on files, to one predicate: a file survives iff some containing
directory's name ends with `_priv_test` (the walk prunes such subtrees) or its
own name ends with `_priv_test.mbt`.  `shutil.copytree(dirs_exist_ok=True)`
then overwrites path-collisions with the source file and adds the rest, with
`ignore_patterns(".git", "target", "_build", ".mooncakes")` filtering any
path component with those exact names. -/

/-- One file of a directory tree. -/
structure FileEntry where
  dirs : List String
  name : String
  content : String
deriving DecidableEq

/-- Path of a file as its component list. -/
def entryPath (e : FileEntry) : List String := e.dirs ++ [e.name]

/-- Embedding of `_is_under_priv_test_dir` (server.py lines 240-250): the
Python loop walks parent links up to the destination root testing
`cur.name.endswith("_priv_test")`; over the component list this is an
existential over the directory components. -/
def is_under_priv_test_dir (dirs : List String) : Bool :=
  dirs.any (fun c => strEndsWith c "_priv_test")

/-- File-level effect of deletion pass 1 (server.py lines 252-266): a
pre-existing file is kept iff it lies under a `*_priv_test` directory (the
walk prunes those subtrees) or its own name ends with `_priv_test.mbt`. -/
def keptInPass1 (e : FileEntry) : Bool :=
  is_under_priv_test_dir e.dirs || strEndsWith e.name "_priv_test.mbt"

/-- The exact-name ignore patterns of the final `shutil.copytree` call. -/
def copy_ignore_names : List String := [".git", "target", "_build", ".mooncakes"]

/-- Source files actually copied: `ignore_patterns` drops any entry whose path
contains a component with one of the ignored names. -/
def copiedFromSrc (src : List FileEntry) : List FileEntry :=
  src.filter (fun e => !(entryPath e).any (fun c => copy_ignore_names.contains c))

/-- Embedding of `copy_project` (server.py lines 228-298): scrub the
destination keeping private-test artefacts, then merge the source tree over it
(source wins on path collisions).  The Boolean is the function's return value,
`True` on every path (errors are logged and swallowed). -/
def copy_project (src dst : List FileEntry) : List FileEntry × Bool :=
  let kept := dst.filter keptInPass1
  let srcC := copiedFromSrc src
  (kept.filter (fun e => !srcC.any (fun s0 => entryPath s0 == entryPath e)) ++ srcC,
   true)

/-! ## Test-output records

`try.py --json` emits one JSON object per line; the server dispatches on the
presence of the keys `test_count`, `summary` (truthy) and `test_name`, ignoring
blank, malformed and non-dict lines.  A line is embedded as its parsed shape;
the JSON decoding itself is not re-implemented. -/

/-- Summary record (total, passed, failed) as built by the server. -/
structure Summary where
  total : Nat
  passed : Nat
  failed : Nat
deriving DecidableEq

/-- Fields of one `test_name` record; `status`/`message` are `none` when the
key is absent. -/
structure CdclResult where
  test_name : String
  status : Option String
  message : Option String
deriving DecidableEq

/-- One line of `try.py --json` output after JSON decoding. -/
inductive CdclLine where
  | blank
  | malformed
  | testCount (n : Nat)
  | summaryLine (total passed failed : Nat)
  | result (r : CdclResult)
deriving DecidableEq

/-- Failure test of a parsed record in `_parse_cdcl_jsonl`
(`item.get("status") and item.get("status") != "pass"`). -/
def cdclIsFailure (r : CdclResult) : Bool :=
  match r.status with
  | some st => st ≠ "" && st ≠ "pass"
  | none => false

/-- Embedding of `_parse_cdcl_jsonl` (server.py lines 501-529): collect the
failing `test_name` records in order and the last `summary` record. -/
def parse_cdcl_jsonl : List CdclLine → List CdclResult × Option Summary
  | [] => ([], none)
  | line :: rest =>
    let p := parse_cdcl_jsonl rest
    match line with
    | CdclLine.summaryLine t pa f =>
      (p.1, match p.2 with
            | some s => some s
            | none => some ⟨t, pa, f⟩)
    | CdclLine.result r => (if cdclIsFailure r then r :: p.1 else p.1, p.2)
    | _ => p

/-- Whole-output blankness: `output.strip()` is falsy iff every line is
whitespace (the empty output included). -/
def cdclOutputBlank (output : List CdclLine) : Bool :=
  output.all (fun l => l == CdclLine.blank)

/-- Embedding of `_is_selection_error` (server.py lines 532-536). -/
def is_selection_error (message : String) : Bool :=
  if message = "" then false
  else
    strHasSub (strLower message) "not unique" || strHasSub (strLower message) "not found"

/-- Failure-message formatting of `run_cdcl_test` / `run_cdcl_test_streaming`
(server.py lines 773-781 and 1122-1130). -/
def cdclFormatError (r : CdclResult) : String :=
  let st := r.status.getD "fail"
  match r.message with
  | some m =>
    if m = "" then r.test_name ++ " [" ++ st ++ "]"
    else r.test_name ++ " [" ++ st ++ "]: " ++ takeChars 200 m
  | none => r.test_name ++ " [" ++ st ++ "]"

/-! ## Phase verdicts -/

/-- Build-phase verdict of `run_moon_build`. -/
structure BuildResult where
  status : String
  exit_code : Int
  output : Option String
  message : String
deriving DecidableEq

/-- Test-phase verdict shared by all test runners.  A result dict without the
`"partial"` key is modelled with `isPartial := false`; dicts missing
`exit_code`/`summary`/`errors` (the short `cancelled` dicts) are modelled with
the neutral values `-1`/`none`/`none`. -/
structure TestResult where
  status : String
  exit_code : Int
  summary : Option Summary
  errors : Option (List String)
  message : String
  isPartial : Bool
deriving DecidableEq

/-- The `{"status": "cancelled", ..., "message": "Cancelled"}` verdict. -/
def cancelledTestResult : TestResult :=
  ⟨"cancelled", -1, none, none, "Cancelled", false⟩

/-! ## Process supervisor environments

Each runner performs exactly one subprocess interaction; its outcome (spawn
failure, normal exit with drained output, or wall-clock timeout) is supplied by
an environment value, and the cooperative-cancellation flag is sampled at the
two points where the Python code reads it: on entry, and after `communicate`
returns. -/

/-- Outcome of the `moon test --build-only` child for `run_moon_build`. -/
inductive BuildExec where
  | completed (rc : Int) (stdout stderr : String)
  | timedOut (stdout stderr : String)
  | raised (msg : String)
deriving DecidableEq

/-- Environment of one `run_moon_build` call. -/
structure BuildEnv where
  cancelledAtEntry : Bool
  exec : BuildExec
  cancelledAfterWait : Bool
deriving DecidableEq

/-- Embedding of `run_moon_build` (server.py lines 539-608).  The second
component records whether a child process was spawned. -/
def run_moon_build (env : BuildEnv) : BuildResult × Bool :=
  if env.cancelledAtEntry then
    (⟨"cancelled", -1, none, "Cancelled"⟩, false)
  else
    match env.exec with
    | BuildExec.completed rc out err =>
      if env.cancelledAfterWait then (⟨"cancelled", -1, none, "Cancelled"⟩, true)
      else if rc = 0 then (⟨"pass", 0, none, "Build succeeded"⟩, true)
      else (⟨"fail", rc, some (out ++ err), "Build failed"⟩, true)
    | BuildExec.timedOut out err =>
      (⟨"error", -1, some (out ++ err), "Timeout"⟩, true)
    | BuildExec.raised msg =>
      (⟨"error", -1, some msg, "Execution error"⟩, false)

/-- Outcome of the `moon test --test-failure-json` child for `run_moon_test`.
The summary regex and the failure-JSONL parse plus `_format_failure_message`
(which reads test source files) are not re-implemented: the environment
supplies the parsed summary and the formatted failure messages directly. -/
inductive MoonExec where
  | completed (rc : Int) (summary : Option Summary) (failureMsgs : List String)
      (rawOutput : String)
  | timedOut
  | raised (msg : String)
deriving DecidableEq

/-- Environment of one `run_moon_test` call. -/
structure MoonEnv where
  cancelledAtEntry : Bool
  timeoutSecs : Nat
  exec : MoonExec
  cancelledAfterWait : Bool
deriving DecidableEq

/-- Embedding of `run_moon_test` (server.py lines 611-711). -/
def run_moon_test (env : MoonEnv) : TestResult × Bool :=
  if env.cancelledAtEntry then (cancelledTestResult, false)
  else
    match env.exec with
    | MoonExec.completed rc summary failureMsgs raw =>
      if env.cancelledAfterWait then (cancelledTestResult, true)
      else
        let errors : Option (List String) :=
          if failureMsgs = [] then none else some (failureMsgs.take 5)
        if rc = 0 then
          (⟨"pass", 0, summary, none, "All tests passed", false⟩, true)
        else if failureMsgs ≠ [] then
          let failedCount :=
            match summary with
            | some s => s.failed
            | none => failureMsgs.length
          (⟨"fail", rc, summary, errors,
            toString failedCount ++ " test(s) failed", false⟩, true)
        else
          (⟨"fail", rc, summary, some [raw],
            "Tests failed (unable to parse results)", false⟩, true)
    | MoonExec.timedOut =>
      (⟨"error", -1, none,
        some ["Test execution timed out after " ++ toString env.timeoutSecs ++ " seconds"],
        "Timeout", false⟩, true)
    | MoonExec.raised msg =>
      (⟨"error", -1, none, some [msg], "Execution error", false⟩, true)

/-- Outcome of the `python3 try.py --json` child for `run_cdcl_test`:
normal exit with the parsed lines of `stdout + stderr`, a timeout with the
lines drained during termination, or an exception before the child existed. -/
inductive CdclExec where
  | completed (rc : Int) (output : List CdclLine) (rawOutput : String)
  | timedOut (drained : List CdclLine)
  | raised (msg : String)
deriving DecidableEq

/-- Environment of one `run_cdcl_test` call. -/
structure CdclEnv where
  cancelledAtEntry : Bool
  timeoutSecs : Nat
  exec : CdclExec
  cancelledAfterWait : Bool
deriving DecidableEq

/-- Truthiness of `not summary or summary.get("failed", 0) == 0`. -/
def summaryFailedZero : Option Summary → Bool
  | none => true
  | some s => s.failed == 0

/-- Truthiness of `summary and summary.get("failed", 0) > 0`. -/
def summaryFailedPos : Option Summary → Bool
  | none => false
  | some s => 0 < s.failed

/-- Embedding of `run_cdcl_test` (server.py lines 714-887). -/
def run_cdcl_test (env : CdclEnv) : TestResult × Bool :=
  if env.cancelledAtEntry then (cancelledTestResult, false)
  else
    match env.exec with
    | CdclExec.raised msg =>
      (⟨"error", -1, none, some [msg], "Execution error", false⟩, false)
    | CdclExec.completed rc output raw =>
      if env.cancelledAfterWait then (cancelledTestResult, true)
      else
        let p := parse_cdcl_jsonl output
        let failures := p.1
        let summary := p.2
        let errors : Option (List String) :=
          if failures = [] then none
          else some ((failures.take 5).map cdclFormatError)
        if rc = 0 ∧ summaryFailedZero summary then
          (⟨"pass", 0, summary, none, "All tests passed", false⟩, true)
        else if rc ≠ 0 ∧ failures = [] ∧ summary = none then
          let message := if strStrip raw = "" then
              "Tests failed (unable to parse results)" else strStrip raw
          if is_selection_error message then
            (⟨"error", rc, none, some [message], message, false⟩, true)
          else
            (⟨"fail", rc, summary, some [message],
              "Tests failed (unable to parse results)", false⟩, true)
        else if failures ≠ [] ∨ summaryFailedPos summary then
          let failedCount :=
            match summary with
            | some s => s.failed
            | none => failures.length
          (⟨"fail", rc, summary, errors,
            toString failedCount ++ " test(s) failed", false⟩, true)
        else
          (⟨"fail", rc, summary, some [raw],
            "Tests failed (unable to parse results)", false⟩, true)
    | CdclExec.timedOut drained =>
      let p := parse_cdcl_jsonl drained
      let errors : Option (List String) :=
        if p.1 = [] then none
        else some ((p.1.take 5).map cdclFormatError)
      if cdclOutputBlank drained then
        (⟨"error", -1, none,
          some ["Test execution timed out after " ++ toString env.timeoutSecs
                ++ " seconds (no results)"],
          "Timeout", false⟩, true)
      else
        (⟨"timeout", -1, p.2, errors, "Timeout with partial results", true⟩, true)

/-! ## SSE transport

Every `send_sse_event` / `send_sse_comment` call is an attempted write to the
HTTP response; the trace records the attempts in order (a disconnected client
makes the write fail, which the callers observe through the returned Boolean,
but the server-side emission still happened).  The response object is modelled
by the number of writes already attempted plus an optional index from which
writes fail (the client disconnecting breaks every later write). -/

/-- One named SSE event as serialised by the server. -/
inductive SseEvent where
  | requestId (request_id : String)
  | phaseEv (phase project_name status : String)
  | errorEv (phase message : String)
  | errorConflict (phase message active_request_id active_project_name : String)
  | testResultEv (test_name status : String) (index : Nat) (total : Option Nat)
      (message : Option String)
  | summaryEv (s : Summary)
  | errorDetail (message : String)
  | keepAlive
  | doneEv (success : Bool)
deriving DecidableEq

/-- The HTTP response channel: `written` write attempts so far; attempts with
index ≥ `failFrom` raise `BrokenPipeError` (a `none` bound never fails). -/
structure WFile where
  failFrom : Option Nat
  written : Nat
deriving DecidableEq

/-- Does the next write succeed? -/
def writeOk (w : WFile) : Bool :=
  match w.failFrom with
  | none => true
  | some n => w.written < n

/-- Account for one write attempt. -/
def bump (w : WFile) : WFile := { w with written := w.written + 1 }

/-! ## Streaming incremental runner (`run_cdcl_test_streaming`, lines 890-1163)

The select loop is driven by a list of observations: each element is either one
line read from the child's stdout (already JSON-decoded, like `CdclLine`) or a
silent 1-second tick, flagged with whether the keep-alive interval has elapsed.
After the list, the environment states whether the child had exited (with its
return code and drained stderr) or was still running, i.e. the wall-clock
deadline expired.  The cancellation flag is sampled at entry and at the
post-loop checkpoint. -/

/-- One iteration of the select loop. -/
inductive Obs where
  | lineObs (l : CdclLine)
  | silence (keepaliveDue : Bool)
deriving DecidableEq

/-- Why the select loop stopped consuming observations. -/
inductive StreamEnd where
  | exited (rc : Int) (stderrTxt : String)
  | stillRunning
deriving DecidableEq

/-- Environment of one `run_cdcl_test_streaming` call. -/
structure StreamEnv where
  cancelledAtEntry : Bool
  spawnRaises : Option String
  timeoutSecs : Nat
  obs : List Obs
  endState : StreamEnd
  cancelledAfter : Bool
deriving DecidableEq

/-- Mutable state of the select loop (server.py lines 930-936 and the loop
locals): the response channel, the trace so far, `test_total`, the last
`summary`, the accumulated `failures`, `test_index` and `client_disconnected`. -/
structure LoopState where
  w : WFile
  trace : List SseEvent
  testTotal : Option Nat
  summary : Option Summary
  failures : List CdclResult
  testIndex : Nat
  clientDisconnected : Bool
deriving DecidableEq

/-- Message field forwarded in a `test_result` event (`if item.get("message")`). -/
def streamMsgField (r : CdclResult) : Option String :=
  match r.message with
  | some m => if m = "" then none else some m
  | none => none

/-- Embedding of the select loop of `run_cdcl_test_streaming`
(server.py lines 960-1034). -/
def streamLoop : List Obs → LoopState → LoopState
  | [], st => st
  | o :: rest, st =>
    if st.clientDisconnected then st
    else
      match o with
      | Obs.silence due =>
        if due then
          let ok := writeOk st.w
          let st' : LoopState :=
            { st with w := bump st.w, trace := st.trace ++ [SseEvent.keepAlive] }
          if ok then streamLoop rest st'
          else { st' with clientDisconnected := true }
        else streamLoop rest st
      | Obs.lineObs l =>
        match l with
        | CdclLine.blank => streamLoop rest st
        | CdclLine.malformed => streamLoop rest st
        | CdclLine.testCount n => streamLoop rest { st with testTotal := some n }
        | CdclLine.summaryLine t pa f =>
          let s : Summary := ⟨t, pa, f⟩
          let ok := writeOk st.w
          let st' : LoopState :=
            { st with w := bump st.w, summary := some s,
                      trace := st.trace ++ [SseEvent.summaryEv s] }
          if ok then streamLoop rest st'
          else { st' with clientDisconnected := true }
        | CdclLine.result r =>
          let idx := st.testIndex + 1
          let status := r.status.getD "unknown"
          let failures' := if status = "pass" then st.failures else st.failures ++ [r]
          let ev := SseEvent.testResultEv r.test_name status idx st.testTotal
            (streamMsgField r)
          let ok := writeOk st.w
          let st' : LoopState :=
            { st with w := bump st.w, testIndex := idx, failures := failures',
                      trace := st.trace ++ [ev] }
          if ok then streamLoop rest st'
          else { st' with clientDisconnected := true }

/-- Initial loop state over a response channel. -/
def initLoopState (w : WFile) : LoopState :=
  ⟨w, [], none, none, [], 0, false⟩

/-- Message used in the streaming selection-error branch
(`(stderr or "").strip() or "Tests failed (unable to parse results)"`). -/
def streamStderrMsg (serr : String) : String :=
  if strStrip serr = "" then "Tests failed (unable to parse results)"
  else strStrip serr

/-- Embedding of `run_cdcl_test_streaming` (server.py lines 890-1163).
Returns the test verdict, the final channel state, the trace of attempted
writes, and whether a child was spawned. -/
def run_cdcl_test_streaming (w : WFile) (env : StreamEnv) :
    TestResult × WFile × List SseEvent × Bool :=
  if env.cancelledAtEntry then (cancelledTestResult, w, [], false)
  else
    match env.spawnRaises with
    | some msg =>
      (⟨"error", -1, none, some [msg], "Execution error", false⟩, w, [], false)
    | none =>
      let st := streamLoop env.obs (initLoopState w)
      if st.clientDisconnected then
        (⟨"cancelled", -1, st.summary, none, "Client disconnected", false⟩,
         st.w, st.trace, true)
      else if env.cancelledAfter then
        (⟨"cancelled", -1, st.summary, none, "Cancelled", false⟩,
         st.w, st.trace, true)
      else
        match env.endState with
        | StreamEnd.stillRunning =>
          let msg := "Test execution timed out after " ++ toString env.timeoutSecs
            ++ " seconds"
          (⟨"timeout", -1, st.summary, some [msg], "Timeout with partial results",
            true⟩,
           bump st.w, st.trace ++ [SseEvent.errorEv "test" msg], true)
        | StreamEnd.exited rc serr =>
          if rc ≠ 0 ∧ st.failures = [] ∧ st.summary = none
              ∧ is_selection_error (streamStderrMsg serr) then
            let msg := streamStderrMsg serr
            (⟨"error", rc, none, some [msg], msg, false⟩,
             bump st.w, st.trace ++ [SseEvent.errorEv "test" msg], true)
          else if rc = 0 ∧ summaryFailedZero st.summary then
            (⟨"pass", 0, st.summary, none, "All tests passed", false⟩,
             st.w, st.trace, true)
          else if st.failures ≠ [] ∨ summaryFailedPos st.summary then
            let failedCount :=
              match st.summary with
              | some s => s.failed
              | none => st.failures.length
            let errs := (st.failures.take 5).map cdclFormatError
            (⟨"fail", rc, st.summary, (if errs = [] then none else some errs),
              toString failedCount ++ " test(s) failed", false⟩,
             st.w, st.trace, true)
          else
            (⟨"fail", rc, st.summary, none,
              "Tests failed (unable to parse results)", false⟩,
             st.w, st.trace, true)

/-! ## Pipeline driver (`handle_proj_submit`, `handle_proj_submit_streaming`)

The submission dict is embedded as a record of its optional fields; the
filesystem around one submission (does `client_data/<project>` exist, the file
trees fed to `copy_project`) and the per-phase subprocess outcomes form the
submission environment.  `datetime.now().isoformat()` timestamps are omitted
from the embedded responses. -/

/-- The request body of `POST /test` after JSON decoding. -/
structure SubmitRequest where
  request_id : Option String
  project_name : Option String
  build_timeout : Option Nat
  test_timeout : Option Nat
  per_test_timeout : Option Nat
  test_name : Option String
  test_file : Option String
deriving DecidableEq

/-- Project name used by both pipeline handlers:
`request_data.get("project_name", "toml")` (server.py lines 1181 and 1372). -/
def submit_project (req : SubmitRequest) : String :=
  (req.project_name).getD "toml"

/-- Components of `CLIENT_DATA_DIR` (server.py line 22). -/
def clientDataDir : List String := ["workspace", "client_data"]

/-- Components of `SERVER_DATA_DIR` (server.py line 23). -/
def serverDataDir : List String := ["workspace", "server_data"]

/-- Model of `pathlib` path join: joining the empty string leaves the path
unchanged (`Path("/a") / ""` is `Path("/a")`). -/
def pathJoin (base : List String) (nm : String) : List String :=
  if nm = "" then base else base ++ [nm]

/-- The `src_project` path of a submission (server.py lines 1182 / 1373). -/
def submit_src_path (req : SubmitRequest) : List String :=
  pathJoin clientDataDir (submit_project req)

/-- The `dst_project` path of a submission (server.py lines 1183 / 1374). -/
def submit_dst_path (req : SubmitRequest) : List String :=
  pathJoin serverDataDir (submit_project req)

/-- Environment of one submission pipeline: filesystem facts and the
subprocess outcomes of each phase that may run. -/
structure SubmitEnv where
  srcExists : Bool
  srcTree : List FileEntry
  dstTree : List FileEntry
  buildEnv : BuildEnv
  cancelledBetween : Bool
  cdclEnv : CdclEnv
  moonEnv : MoonEnv
  streamEnv : StreamEnv

/-- The `(dst_project / "try.py").exists()` probe (server.py lines 1229/1393),
evaluated on the materialised tree produced by `copy_project`. -/
def uses_try_py (env : SubmitEnv) : Bool :=
  (copy_project env.srcTree env.dstTree).1.any
    (fun e => e.dirs == ([] : List String) && e.name == "try.py")

/-- The filter-gating condition (server.py lines 1232 / 1396):
`(per_test_timeout is not None or test_name or test_file) and not uses_try_py`. -/
def filterGateFires (req : SubmitRequest) (env : SubmitEnv) : Bool :=
  (req.per_test_timeout.isSome || truthy req.test_name || truthy req.test_file)
    && !uses_try_py env

/-- The filter-gating error message (server.py lines 1239 / 1399). -/
def filterGateMsg : String :=
  "per_test_timeout/test selection is only supported for projects with try.py"

/-- Which child processes a handler spawned, in order. -/
inductive SpawnKind where
  | moonBuild
  | moonTest
  | cdclTest
  | cdclStreaming
deriving DecidableEq

/-- Response of a pipeline handler: either the error dict
`{"status": "error", "error": msg}` or the full result dict (timestamp
omitted). -/
inductive SubmitOutcome where
  | errorOut (error : String)
  | full (request_id : Option String) (project_name : String)
      (build_result : BuildResult) (test_result : Option TestResult)
deriving DecidableEq

/-- Embedding of `handle_proj_submit` (server.py lines 1361-1467), the
buffered pipeline.  Also returns the spawned children. -/
def handle_proj_submit (req : SubmitRequest) (env : SubmitEnv) :
    SubmitOutcome × List SpawnKind :=
  let pn := submit_project req
  if !env.srcExists then
    (SubmitOutcome.errorOut ("Project not found: " ++ pn), [])
  else
    let usesTry := uses_try_py env
    if filterGateFires req env then
      (SubmitOutcome.errorOut filterGateMsg, [])
    else
      let br := run_moon_build env.buildEnv
      let bSp : List SpawnKind := if br.2 then [SpawnKind.moonBuild] else []
      if br.1.status ≠ "pass" then
        (SubmitOutcome.full req.request_id pn br.1 none, bSp)
      else if env.cancelledBetween then
        (SubmitOutcome.full req.request_id pn br.1 (some cancelledTestResult), bSp)
      else if usesTry then
        let tr := run_cdcl_test env.cdclEnv
        (SubmitOutcome.full req.request_id pn br.1 (some tr.1),
         bSp ++ if tr.2 then [SpawnKind.cdclTest] else [])
      else
        let tr := run_moon_test env.moonEnv
        (SubmitOutcome.full req.request_id pn br.1 (some tr.1),
         bSp ++ if tr.2 then [SpawnKind.moonTest] else [])

/-- Accumulator for SSE emission: response channel plus trace of attempts. -/
structure SseOut where
  w : WFile
  trace : List SseEvent
deriving DecidableEq

/-- One `send_sse_event`/`send_sse_comment` whose Boolean result the caller
ignores (every handler-level emission). -/
def sseEmit (o : SseOut) (e : SseEvent) : SseOut :=
  ⟨bump o.w, o.trace ++ [e]⟩

/-- Post-test tail of the streaming handler (server.py lines 1340-1358):
test-phase bracketing event, terminal `done`, and the result dict. -/
def finishStream (req : SubmitRequest) (pn : String) (o : SseOut)
    (br : BuildResult) (tr : TestResult) (spawns : List SpawnKind) :
    SubmitOutcome × WFile × List SseEvent × List SpawnKind :=
  let testStatus := if tr.status = "pass" then "pass" else "fail"
  let o1 := sseEmit o (SseEvent.phaseEv "test" pn testStatus)
  let success := br.status = "pass" && tr.status = "pass"
  let o2 := sseEmit o1 (SseEvent.doneEv success)
  (SubmitOutcome.full req.request_id pn br (some tr), o2.w, o2.trace, spawns)

/-- Embedding of `handle_proj_submit_streaming` (server.py lines 1166-1358).
Returns the result dict, the final channel, the trace of attempted SSE writes
and the spawned children.  The `copy_project` failure branch (lines 1208-1213)
is dead because `copy_project` returns `True` on every path. -/
def handle_proj_submit_streaming (w : WFile) (req : SubmitRequest)
    (env : SubmitEnv) : SubmitOutcome × WFile × List SseEvent × List SpawnKind :=
  let pn := submit_project req
  let o0 : SseOut := ⟨w, []⟩
  if !env.srcExists then
    let o := sseEmit (sseEmit o0
      (SseEvent.errorEv "copy" ("Project not found: " ++ pn)))
      (SseEvent.doneEv false)
    (SubmitOutcome.errorOut ("Project not found: " ++ pn), o.w, o.trace, [])
  else
    let o1 :=
      match req.request_id with
      | some rid => if rid = "" then o0 else sseEmit o0 (SseEvent.requestId rid)
      | none => o0
    let o2 := sseEmit o1 (SseEvent.phaseEv "copy" pn "start")
    let o3 := sseEmit o2 (SseEvent.phaseEv "copy" pn "pass")
    if filterGateFires req env then
      let o4 := sseEmit (sseEmit o3 (SseEvent.errorEv "build" filterGateMsg))
        (SseEvent.doneEv false)
      (SubmitOutcome.errorOut filterGateMsg, o4.w, o4.trace, [])
    else
      let o4 := sseEmit o3 (SseEvent.phaseEv "build" pn "start")
      let br := run_moon_build env.buildEnv
      let bSp : List SpawnKind := if br.2 then [SpawnKind.moonBuild] else []
      if br.1.status = "cancelled" then
        let o5 := sseEmit (sseEmit o4 (SseEvent.errorEv "build" "Cancelled"))
          (SseEvent.doneEv false)
        (SubmitOutcome.full req.request_id pn br.1 none, o5.w, o5.trace, bSp)
      else if br.1.status ≠ "pass" then
        let o5 := sseEmit (sseEmit (sseEmit o4 (SseEvent.phaseEv "build" pn "fail"))
          (SseEvent.errorEv "build" br.1.message)) (SseEvent.doneEv false)
        (SubmitOutcome.full req.request_id pn br.1 none, o5.w, o5.trace, bSp)
      else
        let o5 := sseEmit o4 (SseEvent.phaseEv "build" pn "pass")
        if env.cancelledBetween then
          let o6 := sseEmit (sseEmit o5 (SseEvent.errorEv "test" "Cancelled"))
            (SseEvent.doneEv false)
          (SubmitOutcome.full req.request_id pn br.1 (some cancelledTestResult),
           o6.w, o6.trace, bSp)
        else
          let o6 := sseEmit o5 (SseEvent.phaseEv "test" pn "start")
          if uses_try_py env then
            let tr := run_cdcl_test_streaming o6.w env.streamEnv
            let o7 : SseOut := ⟨tr.2.1, o6.trace ++ tr.2.2.1⟩
            finishStream req pn o7 br.1 tr.1
              (bSp ++ if tr.2.2.2 then [SpawnKind.cdclStreaming] else [])
          else
            let tr := run_moon_test env.moonEnv
            let o7a :=
              match tr.1.summary with
              | some s => sseEmit o6 (SseEvent.summaryEv s)
              | none => o6
            let o7 :=
              match tr.1.errors with
              | some errs => errs.foldl (fun o m => sseEmit o (SseEvent.errorDetail m)) o7a
              | none => o7a
            finishStream req pn o7 br.1 tr.1
              (bSp ++ if tr.2 then [SpawnKind.moonTest] else [])

/-! ## HTTP surface (`APIHandler.do_POST`, `/test` branch, lines 1521-1627)

The body is either undecodable JSON or a decoded submission record.  The
`except Exception` catch-all (lines 1613-1627) is represented by an optional
injected fault: when present, the dispatched handler is taken to raise at its
entry and `do_POST` emits the `error` + `done` pair (streaming) or the 500
response.  `register_process` attachments performed inside the runners are
covered by the registry theorems and are not re-threaded through this
function. -/

/-- A decoded or undecodable `POST /test` body. -/
inductive RequestBody where
  | invalid
  | valid (req : SubmitRequest)

/-- Environment of one `POST /test` request. -/
structure PostEnv where
  body : RequestBody
  wantsSse : Bool
  genId : String
  registry : RegistryState
  submitEnv : SubmitEnv
  handlerRaises : Option String

/-- Project name taken at the top of `do_POST`:
`request_data.get("project_name", "toml")` (server.py line 1531). -/
def do_post_project (req : SubmitRequest) : String :=
  (req.project_name).getD "toml"

/-- Request id taken at the top of `do_POST`:
`request_data.get("request_id") or str(uuid.uuid4())` (server.py line 1535). -/
def do_post_request_id (req : SubmitRequest) (genId : String) : String :=
  match req.request_id with
  | some r => if r = "" then genId else r
  | none => genId

/-- Conflict error message built by `do_POST` (server.py lines 1543-1555). -/
def conflictErrorMsg (c : Conflict) (pn rid : String) : String :=
  if c.reason = "request_id_busy" then
    "request_id '" ++ rid ++ "' is already running for project '"
      ++ c.project_name ++ "'. Use a unique request_id."
  else
    "A test for project '" ++ pn ++ "' is already running (request_id: "
      ++ c.request_id ++ "). Cancel it first with POST /cancel"

/-- Result of the `/test` branch of `do_POST`: the HTTP status code of a JSON
reply (buffered mode), the handler outcome when a handler ran, the SSE trace
(streaming mode), the final registry, and the project key under which the
request was admitted (when admission succeeded). -/
structure PostResult where
  code : Option Nat
  outcome : Option SubmitOutcome
  trace : List SseEvent
  registry : RegistryState
  admittedUnder : Option String

/-- Embedding of the `/test` branch of `APIHandler.do_POST`
(server.py lines 1523-1627). -/
def do_POST_test (env : PostEnv) (w : WFile) : PostResult :=
  match env.body with
  | RequestBody.invalid =>
    if env.wantsSse then
      ⟨none, none, [SseEvent.errorEv "request" "Invalid JSON", SseEvent.doneEv false],
       env.registry, none⟩
    else
      ⟨some 400, none, [], env.registry, none⟩
  | RequestBody.valid req0 =>
    let pn := do_post_project req0
    let req1 : SubmitRequest := { req0 with project_name := some pn }
    let rid := do_post_request_id req1 env.genId
    let req : SubmitRequest := { req1 with request_id := some rid }
    let reg := try_register_request env.registry pn rid
    match reg.1 with
    | some c =>
      if env.wantsSse then
        ⟨none, none,
         [SseEvent.errorConflict "request" (conflictErrorMsg c pn rid)
            c.request_id c.project_name,
          SseEvent.doneEv false],
         env.registry, none⟩
      else
        ⟨some 409, none, [], env.registry, none⟩
    | none =>
      match env.handlerRaises with
      | some m =>
        let reg2 := unregister_request reg.2 rid
        if env.wantsSse then
          ⟨none, none, [SseEvent.errorEv "request" m, SseEvent.doneEv false],
           reg2, some (registry_project pn)⟩
        else
          ⟨some 500, none, [], reg2, some (registry_project pn)⟩
      | none =>
        if env.wantsSse then
          let h := handle_proj_submit_streaming w req env.submitEnv
          ⟨none, some h.1, h.2.2.1, unregister_request reg.2 rid,
           some (registry_project pn)⟩
        else
          let h := handle_proj_submit req env.submitEnv
          let code : Nat :=
            match h.1 with
            | SubmitOutcome.errorOut _ => 500
            | SubmitOutcome.full _ _ _ _ => 200
          ⟨some code, some h.1, [], unregister_request reg.2 rid,
           some (registry_project pn)⟩

/-! ## Trace predicates and concrete instances used by the theorems -/

/-- Is an event the terminal `done` event? -/
def isDoneEv : SseEvent → Bool
  | SseEvent.doneEv _ => true
  | _ => false

/-- No `done` event occurs in the trace. -/
def noDoneB (l : List SseEvent) : Bool := l.all (fun e => !isDoneEv e)

/-- The trace contains exactly one `done` event and it is the last element. -/
def endsWithExactlyOneDone : List SseEvent → Bool
  | [] => false
  | [e] => isDoneEv e
  | e :: e' :: rest => !isDoneEv e && endsWithExactlyOneDone (e' :: rest)

/-- Prefer the first option when present (last-record-wins combinator). -/
def lastOr (a b : Option Summary) : Option Summary :=
  match a with
  | some s => some s
  | none => b

/-- The summary carried by one loop observation, if any. -/
def obsSummaryOf : Obs → Option Summary
  | Obs.lineObs (CdclLine.summaryLine t pa f) => some ⟨t, pa, f⟩
  | _ => none

/-- The last `summary` record among a list of loop observations. -/
def obsLastSummary : List Obs → Option Summary
  | [] => none
  | o :: rest => lastOr (obsLastSummary rest) (obsSummaryOf o)

/-- Registry state holding one admitted request `r1` for project `toml` with a
running child attached: the scenario of two successive cancel requests. -/
def c4state : RegistryState :=
  { byProject := fun p => if p = "toml" then some ⟨"r1", "toml", some ⟨true⟩, false⟩ else none,
    reqToProject := fun r => if r = "r1" then some "toml" else none }

/-- Build environment whose child hits the wall-clock deadline. -/
def c3buildEnv : BuildEnv := ⟨false, BuildExec.timedOut "" "", false⟩

/-- Incremental-runner environment that times out after draining only a blank
line (`output.strip()` falsy although output was produced). -/
def c6env : CdclEnv := ⟨false, 60, CdclExec.timedOut [CdclLine.blank], false⟩

/-- A build environment whose child exits cleanly. -/
def benignBuildEnv : BuildEnv := ⟨false, BuildExec.completed 0 "" "", false⟩

/-- A generic-runner environment whose child exits cleanly. -/
def benignMoonEnv : MoonEnv := ⟨false, 10800, MoonExec.completed 0 none [] "", false⟩

/-- An incremental-runner environment whose child exits cleanly. -/
def benignCdclEnv : CdclEnv := ⟨false, 10800, CdclExec.completed 0 [] "", false⟩

/-- A streaming-runner environment whose child exits cleanly. -/
def benignStreamEnv : StreamEnv := ⟨false, none, 10800, [], StreamEnd.exited 0 "", false⟩

/-- A submission environment where every phase succeeds on an empty project. -/
def benignSubmitEnv : SubmitEnv :=
  ⟨true, [], [], benignBuildEnv, false, benignCdclEnv, benignMoonEnv, benignStreamEnv⟩

/-- Submission with an explicitly empty project name. -/
def c9reqEmpty : SubmitRequest := ⟨some "r1", some "", none, none, none, none, none⟩

/-- Submission with the project name omitted. -/
def c9reqOmitted : SubmitRequest := ⟨some "r1", none, none, none, none, none, none⟩

/-- `POST /test` environment for the empty-project-name submission. -/
def c9postEnvEmpty : PostEnv :=
  ⟨RequestBody.valid c9reqEmpty, false, "gen", emptyRegistry, benignSubmitEnv, none⟩

/-- `POST /test` environment for the omitted-project-name submission. -/
def c9postEnvOmitted : PostEnv :=
  ⟨RequestBody.valid c9reqOmitted, false, "gen", emptyRegistry, benignSubmitEnv, none⟩

/-! ## Theorems -/

/-- C3 (counterexample): on a build-phase wall-clock timeout the code returns
status `"error"`, not `"timeout"`, so the claimed verdict status is wrong. -/
theorem build_timeout_status_counterexample :
    c3buildEnv.exec = BuildExec.timedOut "" ""
    ∧ (run_moon_build c3buildEnv).1.status = "error"
    ∧ (run_moon_build c3buildEnv).1.message = "Timeout"
    ∧ ("error" : String) ≠ "timeout" := by
  refine ⟨rfl, rfl, rfl, by decide⟩

/-- C3 (amended): if the build deadline expires before the child exits, the
build verdict has status `error` (not `timeout`), exit-code sentinel `-1` and
message `"Timeout"`, and the test phase is skipped: the buffered pipeline
returns the build verdict with no test verdict and spawns no test child. -/
theorem build_timeout_amended (env : BuildEnv) (req : SubmitRequest)
    (senv : SubmitEnv) (out err : String)
    (h1 : env.cancelledAtEntry = false) (h2 : env.exec = BuildExec.timedOut out err)
    (h3 : senv.buildEnv = env) (h4 : senv.srcExists = true)
    (h5 : filterGateFires req senv = false) :
    (run_moon_build env).1.status = "error"
    ∧ (run_moon_build env).1.exit_code = -1
    ∧ (run_moon_build env).1.message = "Timeout"
    ∧ (handle_proj_submit req senv).1 =
        SubmitOutcome.full req.request_id (submit_project req) (run_moon_build env).1 none
    ∧ (handle_proj_submit req senv).2 = [SpawnKind.moonBuild] := by
  have hb : run_moon_build env = (⟨"error", -1, some (out ++ err), "Timeout"⟩, true) := by
    simp [run_moon_build, h1, h2]
  refine ⟨by simp [hb], by simp [hb], by simp [hb], ?_, ?_⟩ <;>
    simp [handle_proj_submit, h3, h4, h5, hb]

/-- C3 (witness): the amended statement at a concrete timed-out build. -/
theorem build_timeout_amended_witness :
    (run_moon_build c3buildEnv).1.status = "error"
    ∧ (run_moon_build c3buildEnv).1.exit_code = -1
    ∧ (run_moon_build c3buildEnv).1.message = "Timeout"
    ∧ (handle_proj_submit c9reqOmitted
        { benignSubmitEnv with buildEnv := c3buildEnv }).1 =
        SubmitOutcome.full (some "r1") "toml" (run_moon_build c3buildEnv).1 none
    ∧ (handle_proj_submit c9reqOmitted
        { benignSubmitEnv with buildEnv := c3buildEnv }).2 = [SpawnKind.moonBuild] :=
  build_timeout_amended c3buildEnv c9reqOmitted
    { benignSubmitEnv with buildEnv := c3buildEnv } "" "" rfl rfl rfl rfl (by decide)

/-- C8: for each of the four phase runners, a cancellation flag already set
when the runner is entered yields status `cancelled` and no child is spawned. -/
theorem cancelled_before_spawn_spec (benv : BuildEnv) (menv : MoonEnv)
    (cenv : CdclEnv) (senv : StreamEnv) (w : WFile)
    (h1 : benv.cancelledAtEntry = true) (h2 : menv.cancelledAtEntry = true)
    (h3 : cenv.cancelledAtEntry = true) (h4 : senv.cancelledAtEntry = true) :
    (run_moon_build benv).1.status = "cancelled" ∧ (run_moon_build benv).2 = false
    ∧ (run_moon_test menv).1.status = "cancelled" ∧ (run_moon_test menv).2 = false
    ∧ (run_cdcl_test cenv).1.status = "cancelled" ∧ (run_cdcl_test cenv).2 = false
    ∧ (run_cdcl_test_streaming w senv).1.status = "cancelled"
    ∧ (run_cdcl_test_streaming w senv).2.2.2 = false := by
  refine ⟨?_, ?_, ?_, ?_, ?_, ?_, ?_, ?_⟩ <;>
    simp [run_moon_build, run_moon_test, run_cdcl_test, run_cdcl_test_streaming,
      cancelledTestResult, h1, h2, h3, h4]

/-- C8 (witness): the cancelled-at-entry statement at concrete environments. -/
theorem cancelled_before_spawn_spec_witness :
    (run_moon_build ⟨true, BuildExec.completed 0 "" "", false⟩).1.status = "cancelled"
    ∧ (run_moon_build ⟨true, BuildExec.completed 0 "" "", false⟩).2 = false
    ∧ (run_moon_test ⟨true, 1, MoonExec.timedOut, false⟩).1.status = "cancelled"
    ∧ (run_moon_test ⟨true, 1, MoonExec.timedOut, false⟩).2 = false
    ∧ (run_cdcl_test ⟨true, 1, CdclExec.timedOut [], false⟩).1.status = "cancelled"
    ∧ (run_cdcl_test ⟨true, 1, CdclExec.timedOut [], false⟩).2 = false
    ∧ (run_cdcl_test_streaming ⟨none, 0⟩ ⟨true, none, 1, [], StreamEnd.stillRunning, false⟩).1.status = "cancelled"
    ∧ (run_cdcl_test_streaming ⟨none, 0⟩ ⟨true, none, 1, [], StreamEnd.stillRunning, false⟩).2.2.2 = false :=
  cancelled_before_spawn_spec ⟨true, BuildExec.completed 0 "" "", false⟩
    ⟨true, 1, MoonExec.timedOut, false⟩ ⟨true, 1, CdclExec.timedOut [], false⟩
    ⟨true, none, 1, [], StreamEnd.stillRunning, false⟩ ⟨none, 0⟩ rfl rfl rfl rfl

/-- C7: a submission carrying a per-test deadline or a test-name/test-file
filter against a project whose materialised copy has no `try.py` is rejected
with the filter-gating error before any child is spawned, in both the buffered
and the streaming pipeline. -/
theorem filter_gating_spec (req : SubmitRequest) (env : SubmitEnv) (w : WFile)
    (hFilters : (req.per_test_timeout.isSome || truthy req.test_name
      || truthy req.test_file) = true)
    (hNoTry : uses_try_py env = false)
    (hSrc : env.srcExists = true) :
    (handle_proj_submit req env).1 = SubmitOutcome.errorOut filterGateMsg
    ∧ (handle_proj_submit req env).2 = []
    ∧ (handle_proj_submit_streaming w req env).1 = SubmitOutcome.errorOut filterGateMsg
    ∧ (handle_proj_submit_streaming w req env).2.2.2 = [] := by
  have hGate : filterGateFires req env = true := by
    simp [filterGateFires, hFilters, hNoTry]
  refine ⟨?_, ?_, ?_, ?_⟩ <;>
    simp [handle_proj_submit, handle_proj_submit_streaming, hGate, hSrc]

/-- C7 (witness): the gating statement at a concrete filtered submission to a
project without `try.py`. -/
theorem filter_gating_spec_witness :
    (handle_proj_submit ⟨some "r1", some "toml", none, none, some 5, none, none⟩
        benignSubmitEnv).1 = SubmitOutcome.errorOut filterGateMsg
    ∧ (handle_proj_submit ⟨some "r1", some "toml", none, none, some 5, none, none⟩
        benignSubmitEnv).2 = []
    ∧ (handle_proj_submit_streaming ⟨none, 0⟩
        ⟨some "r1", some "toml", none, none, some 5, none, none⟩
        benignSubmitEnv).1 = SubmitOutcome.errorOut filterGateMsg
    ∧ (handle_proj_submit_streaming ⟨none, 0⟩
        ⟨some "r1", some "toml", none, none, some 5, none, none⟩
        benignSubmitEnv).2.2.2 = [] :=
  filter_gating_spec ⟨some "r1", some "toml", none, none, some 5, none, none⟩
    benignSubmitEnv ⟨none, 0⟩ (by decide) (by decide) rfl

/-- C5 (counterexample): a destination file whose name is `_priv_test` followed
by an extension other than `.mbt` is not preserved: the scrub deletes
`a_priv_test.txt` although the claim says every `_priv_test.*` file survives. -/
theorem priv_test_extension_counterexample :
    "a_priv_test.txt" = "a_priv_test" ++ ".txt"
    ∧ (copy_project [] [⟨[], "a_priv_test.txt", "x"⟩]).1 = []
    ∧ (copy_project [] [⟨[], "a_priv_test.txt", "x"⟩]).2 = true := by
  refine ⟨rfl, by decide, rfl⟩

/-- C5 (amended): materialisation always reports success, and a pre-existing
destination file not overwritten by the copied source survives iff it lies
under a `*_priv_test` directory or its own name ends with `_priv_test.mbt`
(only the `.mbt` extension is preserved); every other pre-existing file is
removed. -/
theorem copy_project_preservation_amended (src dst : List FileEntry) (e : FileEntry)
    (hmem : e ∈ dst)
    (hnosrc : (copiedFromSrc src).any (fun s0 => entryPath s0 == entryPath e) = false) :
    (copy_project src dst).2 = true
    ∧ (keptInPass1 e = true → e ∈ (copy_project src dst).1)
    ∧ (keptInPass1 e = false → e ∉ (copy_project src dst).1) := by
  refine ⟨rfl, ?_, ?_⟩
  · intro hk
    simp only [copy_project, List.mem_append, List.mem_filter]
    exact Or.inl ⟨⟨hmem, hk⟩, by simp [hnosrc]⟩
  · intro hk hin
    simp only [copy_project, List.mem_append, List.mem_filter] at hin
    rcases hin with ⟨⟨_, hk'⟩, _⟩ | hsrc
    · rw [hk] at hk'
      exact Bool.false_ne_true hk'
    · have : (copiedFromSrc src).any (fun s0 => entryPath s0 == entryPath e) = true :=
        List.any_eq_true.mpr ⟨e, hsrc, by simp⟩
      rw [hnosrc] at this
      exact Bool.false_ne_true this

/-- C5 (witness): the amended statement at a concrete preserved private test. -/
theorem copy_project_preservation_amended_witness :
    (copy_project [] [⟨["p_priv_test"], "f.txt", "y"⟩]).2 = true
    ∧ (keptInPass1 ⟨["p_priv_test"], "f.txt", "y"⟩ = true →
        (⟨["p_priv_test"], "f.txt", "y"⟩ : FileEntry) ∈
          (copy_project [] [⟨["p_priv_test"], "f.txt", "y"⟩]).1)
    ∧ (keptInPass1 ⟨["p_priv_test"], "f.txt", "y"⟩ = false →
        (⟨["p_priv_test"], "f.txt", "y"⟩ : FileEntry) ∉
          (copy_project [] [⟨["p_priv_test"], "f.txt", "y"⟩]).1) :=
  copy_project_preservation_amended [] [⟨["p_priv_test"], "f.txt", "y"⟩]
    ⟨["p_priv_test"], "f.txt", "y"⟩ (by decide) (by decide)

/-- A trace extended by one event has no `done` iff the trace had none and the
event is not `done`. -/
theorem noDoneB_push (l : List SseEvent) (e : SseEvent) :
    noDoneB (l ++ [e]) = (noDoneB l && !isDoneEv e) := by
  simp [noDoneB]

/-- The select loop is a no-op once the client has disconnected. -/
theorem streamLoop_disconnected (obs : List Obs) (st : LoopState)
    (h : st.clientDisconnected = true) : streamLoop obs st = st := by
  cases obs with
  | nil => rfl
  | cons o rest => simp [streamLoop, h]

/-- Preferring over `none` is the identity. -/
theorem lastOr_none (a : Option Summary) : lastOr a none = a := by
  cases a <;> rfl

/-- Unfolding of the last-summary over one observation. -/
theorem obsLast_cons (o : Obs) (rest : List Obs) :
    obsLastSummary (o :: rest) = lastOr (obsLastSummary rest) (obsSummaryOf o) := rfl

/-- Preferring something already preferred is idempotent on the left. -/
theorem lastOr_some_left (a : Option Summary) (s : Summary) (b : Option Summary) :
    lastOr (lastOr a (some s)) b = lastOr a (some s) := by
  cases a <;> rfl

/-- If the loop ran to completion without losing the client, its `summary`
local is the last summary record among the observations (falling back to the
starting value). -/
theorem streamLoop_summary (obs : List Obs) (st : LoopState)
    (h : (streamLoop obs st).clientDisconnected = false) :
    (streamLoop obs st).summary = lastOr (obsLastSummary obs) st.summary := by
  induction obs generalizing st with
  | nil => simp [streamLoop, obsLastSummary, lastOr]
  | cons o rest ih =>
    by_cases hd : st.clientDisconnected = true
    · rw [streamLoop_disconnected (o :: rest) st hd] at h
      rw [h] at hd
      exact absurd hd (by simp)
    · rw [Bool.not_eq_true] at hd
      cases o with
      | silence due =>
        cases due with
        | false =>
          rw [streamLoop] at h ⊢
          simp only [hd, Bool.false_eq_true, if_false] at h ⊢
          rw [ih _ h, obsLast_cons, show obsSummaryOf (Obs.silence false) = none from rfl, lastOr_none]
        | true =>
          rw [streamLoop] at h ⊢
          simp only [hd, Bool.false_eq_true, if_false] at h ⊢
          by_cases hok : writeOk st.w = true
          · simp only [hok, if_true] at h ⊢
            rw [ih _ h, obsLast_cons, show obsSummaryOf (Obs.silence true) = none from rfl, lastOr_none]
          · rw [Bool.not_eq_true] at hok
            simp [hok] at h
      | lineObs l =>
        cases l with
        | blank =>
          rw [streamLoop] at h ⊢
          simp only [hd, Bool.false_eq_true, if_false] at h ⊢
          rw [ih _ h, obsLast_cons, show obsSummaryOf (Obs.lineObs CdclLine.blank) = none from rfl, lastOr_none]
        | malformed =>
          rw [streamLoop] at h ⊢
          simp only [hd, Bool.false_eq_true, if_false] at h ⊢
          rw [ih _ h, obsLast_cons, show obsSummaryOf (Obs.lineObs CdclLine.malformed) = none from rfl, lastOr_none]
        | testCount n =>
          rw [streamLoop] at h ⊢
          simp only [hd, Bool.false_eq_true, if_false] at h ⊢
          rw [ih _ h, obsLast_cons, show obsSummaryOf (Obs.lineObs (CdclLine.testCount n)) = none from rfl, lastOr_none]
        | summaryLine t pa f =>
          rw [streamLoop] at h ⊢
          simp only [hd, Bool.false_eq_true, if_false] at h ⊢
          by_cases hok : writeOk st.w = true
          · simp only [hok, if_true] at h ⊢
            rw [ih _ h, obsLast_cons, show obsSummaryOf (Obs.lineObs (CdclLine.summaryLine t pa f)) = some ⟨t, pa, f⟩ from rfl, lastOr_some_left]
          · rw [Bool.not_eq_true] at hok
            simp [hok] at h
        | result r =>
          rw [streamLoop] at h ⊢
          simp only [hd, Bool.false_eq_true, if_false] at h ⊢
          by_cases hok : writeOk st.w = true
          · simp only [hok, if_true] at h ⊢
            rw [ih _ h, obsLast_cons, show obsSummaryOf (Obs.lineObs (CdclLine.result r)) = none from rfl, lastOr_none]
          · rw [Bool.not_eq_true] at hok
            simp [hok] at h

/-- C6 (counterexample): output consisting of one whitespace-only line is
"some output", yet the buffered incremental runner returns status `"error"`
with no partial flag on timeout, because `output.strip()` is falsy. -/
theorem timeout_blank_output_counterexample :
    c6env.exec = CdclExec.timedOut [CdclLine.blank]
    ∧ [CdclLine.blank] ≠ ([] : List CdclLine)
    ∧ (run_cdcl_test c6env).1.status = "error"
    ∧ (run_cdcl_test c6env).1.isPartial = false
    ∧ ("error" : String) ≠ "timeout" := by
  refine ⟨rfl, by decide, by decide, by decide, by decide⟩

/-- C6 (amended): if the overall deadline expires while the incremental runner
has produced non-whitespace output, the buffered runner returns status
`timeout` with the partial flag set and the summary parsed last from the
drained output (absent when none was seen); `parse_cdcl_jsonl` indeed keeps
the last summary record; and the streaming runner's timeout exit (reached when
neither cancellation nor a client disconnect intervened) likewise returns
`timeout`, partial, with the last summary observed. -/
theorem timeout_partial_amended :
    (∀ (env : CdclEnv) (drained : List CdclLine),
      env.cancelledAtEntry = false → env.exec = CdclExec.timedOut drained →
      cdclOutputBlank drained = false →
      (run_cdcl_test env).1.status = "timeout"
      ∧ (run_cdcl_test env).1.isPartial = true
      ∧ (run_cdcl_test env).1.summary = (parse_cdcl_jsonl drained).2)
    ∧ (∀ (out : List CdclLine) (t pa f : Nat),
      (parse_cdcl_jsonl (out ++ [CdclLine.summaryLine t pa f])).2 = some ⟨t, pa, f⟩)
    ∧ (∀ (w : WFile) (env : StreamEnv),
      env.cancelledAtEntry = false → env.spawnRaises = none →
      env.endState = StreamEnd.stillRunning → env.cancelledAfter = false →
      (streamLoop env.obs (initLoopState w)).clientDisconnected = false →
      (run_cdcl_test_streaming w env).1.status = "timeout"
      ∧ (run_cdcl_test_streaming w env).1.isPartial = true
      ∧ (run_cdcl_test_streaming w env).1.summary = obsLastSummary env.obs) := by
  refine ⟨?_, ?_, ?_⟩
  · intro env drained h1 h2 h3
    simp [run_cdcl_test, h1, h2, h3]
  · intro out t pa f
    induction out with
    | nil => rfl
    | cons l rest ih =>
      cases l with
      | blank => simpa [parse_cdcl_jsonl] using ih
      | malformed => simpa [parse_cdcl_jsonl] using ih
      | testCount n => simpa [parse_cdcl_jsonl] using ih
      | summaryLine t' pa' f' => simp [parse_cdcl_jsonl, ih]
      | result r => simpa [parse_cdcl_jsonl] using ih
  · intro w env h1 h2 h3 h4 h5
    have hs := streamLoop_summary env.obs (initLoopState w) h5
    rw [show (initLoopState w).summary = none from rfl, lastOr_none] at hs
    simp [run_cdcl_test_streaming, h1, h2, h3, h4, h5, hs]

/-- C6 (witness): the amended statement at a concrete timed-out run whose
drained output ends with a summary record. -/
theorem timeout_partial_amended_witness :
    ((run_cdcl_test ⟨false, 60, CdclExec.timedOut [CdclLine.summaryLine 3 2 1], false⟩).1.status = "timeout"
      ∧ (run_cdcl_test ⟨false, 60, CdclExec.timedOut [CdclLine.summaryLine 3 2 1], false⟩).1.isPartial = true
      ∧ (run_cdcl_test ⟨false, 60, CdclExec.timedOut [CdclLine.summaryLine 3 2 1], false⟩).1.summary
          = (parse_cdcl_jsonl [CdclLine.summaryLine 3 2 1]).2)
    ∧ ((parse_cdcl_jsonl ([CdclLine.blank] ++ [CdclLine.summaryLine 3 2 1])).2 = some ⟨3, 2, 1⟩)
    ∧ ((run_cdcl_test_streaming ⟨none, 0⟩
          ⟨false, none, 60, [Obs.lineObs (CdclLine.summaryLine 3 2 1)], StreamEnd.stillRunning, false⟩).1.status = "timeout"
      ∧ (run_cdcl_test_streaming ⟨none, 0⟩
          ⟨false, none, 60, [Obs.lineObs (CdclLine.summaryLine 3 2 1)], StreamEnd.stillRunning, false⟩).1.isPartial = true
      ∧ (run_cdcl_test_streaming ⟨none, 0⟩
          ⟨false, none, 60, [Obs.lineObs (CdclLine.summaryLine 3 2 1)], StreamEnd.stillRunning, false⟩).1.summary
          = obsLastSummary [Obs.lineObs (CdclLine.summaryLine 3 2 1)]) :=
  ⟨timeout_partial_amended.1 ⟨false, 60, CdclExec.timedOut [CdclLine.summaryLine 3 2 1], false⟩
      [CdclLine.summaryLine 3 2 1] rfl rfl (by decide),
   timeout_partial_amended.2.1 [CdclLine.blank] 3 2 1,
   timeout_partial_amended.2.2 ⟨none, 0⟩
      ⟨false, none, 60, [Obs.lineObs (CdclLine.summaryLine 3 2 1)], StreamEnd.stillRunning, false⟩
      rfl rfl rfl rfl (by decide)⟩

/-- C4 (counterexample): two successive cancel requests for the same admitted
submission return different terminal statuses: the first finds the running
child and returns `cancelled`; the second finds the child already terminated
and returns `no_process`. -/
theorem cancel_idempotence_counterexample :
    (cancel_request c4state "r1").1 = "cancelled"
    ∧ (cancel_request (cancel_request c4state "r1").2 "r1").1 = "no_process"
    ∧ ("cancelled" : String) ≠ "no_process" := by
  refine ⟨by decide, by decide, by decide⟩

/-- C4 (amended): a cancel for an unknown submission id returns `not_found`
and leaves the registry unchanged; a cancel for an admitted submission always
sets the cancellation flag (so the flag update is idempotent) and returns
`cancelled` when a live child is attached and `no_process` otherwise — hence
successive cancels may return different statuses. -/
theorem cancel_request_amended (s : RegistryState) (rid : String) :
    (s.reqToProject rid = none →
      (cancel_request s rid).1 = "not_found" ∧ (cancel_request s rid).2 = s)
    ∧ (∀ pn rec, s.reqToProject rid = some pn → s.byProject pn = some rec →
        rec.request_id = rid →
        (cancel_request s rid).1 =
          (match rec.proc with
           | some p => if p.running then "cancelled" else "no_process"
           | none => "no_process")
        ∧ ∃ rec', ((cancel_request s rid).2).byProject pn = some rec'
            ∧ rec'.cancelled = true ∧ rec'.request_id = rid) := by
  constructor
  · intro h
    simp [cancel_request, h]
  · intro pn rec h1 h2 h3
    simp only [cancel_request, h1, h2]
    rw [if_neg (by simp [h3])]
    cases hp : rec.proc with
    | none =>
      refine ⟨?_, ⟨{ rec with cancelled := true }, ?_, ?_, ?_⟩⟩
      · rfl
      · simp [mapUpd, hp]
      · rfl
      · exact h3
    | some p =>
      cases hr : p.running with
      | true =>
        simp only [hr, if_true]
        refine ⟨?_, ⟨{ rec with cancelled := true, proc := some ⟨false⟩ }, ?_, ?_, ?_⟩⟩
        · trivial
        · simp [mapUpd, hp]
        · rfl
        · exact h3
      | false =>
        simp only [hr, Bool.false_eq_true, if_false]
        refine ⟨?_, ⟨{ rec with cancelled := true }, ?_, ?_, ?_⟩⟩
        · trivial
        · simp [mapUpd, hp]
        · rfl
        · exact h3

/-- C4 (witness): the amended statement at the concrete one-record registry. -/
theorem cancel_request_amended_witness :
    (cancel_request c4state "r1").1 = "cancelled"
    ∧ ∃ rec', ((cancel_request c4state "r1").2).byProject "toml" = some rec'
        ∧ rec'.cancelled = true ∧ rec'.request_id = "r1" :=
  (cancel_request_amended c4state "r1").2 "toml" ⟨"r1", "toml", some ⟨true⟩, false⟩
    rfl rfl rfl

/-- The empty registry satisfies the agreement invariant. -/
theorem registryInv_empty : RegistryInv emptyRegistry := by
  intro r q
  constructor
  · intro hq
    simp [emptyRegistry] at hq
  · rintro ⟨rec, hrec, _⟩
    simp [emptyRegistry] at hrec

/-- Updating a project's record without changing its request id preserves the
agreement invariant. -/
theorem inv_upd_same_rid (s : RegistryState) (h : RegistryInv s) (pn : String)
    (active a' : ActiveRecord) (hb : s.byProject pn = some active)
    (hsame : a'.request_id = active.request_id) :
    RegistryInv { s with byProject := mapUpd s.byProject pn a' } := by
  intro r q
  simp only [mapUpd]
  constructor
  · intro hq
    rcases (h r q).mp hq with ⟨rec, hrec, hrid⟩
    by_cases hqq : q = pn
    · subst hqq
      rw [hb] at hrec
      injection hrec with hrec
      subst hrec
      exact ⟨a', by rw [if_pos rfl], by rw [hsame]; exact hrid⟩
    · exact ⟨rec, by rw [if_neg hqq]; exact hrec, hrid⟩
  · rintro ⟨rec, hrec, hrid⟩
    by_cases hqq : q = pn
    · subst hqq
      rw [if_pos rfl] at hrec
      injection hrec with hrec
      subst hrec
      exact (h r q).mpr ⟨active, hb, by rw [← hsame]; exact hrid⟩
    · rw [if_neg hqq] at hrec
      exact (h r q).mpr ⟨rec, hrec, hrid⟩

/-- Admission preserves the agreement invariant. -/
theorem inv_try_register (s : RegistryState) (h : RegistryInv s)
    (pn rid : String) : RegistryInv (try_register_request s pn rid).2 := by
  cases hb : s.byProject (registry_project pn) with
  | some ex =>
    have hst : (try_register_request s pn rid).2 = s := by
      simp [try_register_request, hb]
    rw [hst]; exact h
  | none =>
    cases hr : s.reqToProject rid with
    | some p =>
      have hst : (try_register_request s pn rid).2 = s := by
        simp [try_register_request, hb, hr]
      rw [hst]; exact h
    | none =>
      have hst : (try_register_request s pn rid).2 =
          { s with
            byProject := mapUpd s.byProject (registry_project pn)
              ⟨rid, registry_project pn, none, false⟩,
            reqToProject := mapUpd s.reqToProject rid (registry_project pn) } := by
        simp [try_register_request, hb, hr]
      rw [hst]
      intro r q
      simp only [mapUpd]
      constructor
      · intro hq
        by_cases hrr : r = rid
        · rw [if_pos hrr] at hq
          injection hq with hq
          subst hq
          exact ⟨⟨rid, registry_project pn, none, false⟩, by rw [if_pos rfl], hrr.symm⟩
        · rw [if_neg hrr] at hq
          rcases (h r q).mp hq with ⟨rec, hrec, hrid⟩
          by_cases hqq : q = registry_project pn
          · exfalso
            subst hqq
            rw [hb] at hrec
            cases hrec
          · exact ⟨rec, by rw [if_neg hqq]; exact hrec, hrid⟩
      · rintro ⟨rec, hrec, hrid⟩
        by_cases hqq : q = registry_project pn
        · subst hqq
          rw [if_pos rfl] at hrec
          injection hrec with hrec
          subst hrec
          have : r = rid := hrid.symm
          rw [if_pos this]
        · rw [if_neg hqq] at hrec
          have hsr : s.reqToProject r = some q := (h r q).mpr ⟨rec, hrec, hrid⟩
          by_cases hrr : r = rid
          · exfalso
            subst hrr
            rw [hr] at hsr
            cases hsr
          · rw [if_neg hrr]
            exact hsr

/-- Attaching a child process preserves the agreement invariant. -/
theorem inv_register_process (s : RegistryState) (h : RegistryInv s)
    (rid : String) (p : Proc) : RegistryInv (register_process s rid p) := by
  cases hr : s.reqToProject rid with
  | none =>
    have hst : register_process s rid p = s := by simp [register_process, hr]
    rw [hst]; exact h
  | some pn =>
    cases hb : s.byProject pn with
    | none =>
      have hst : register_process s rid p = s := by simp [register_process, hr, hb]
      rw [hst]; exact h
    | some active =>
      by_cases ha : active.request_id = rid
      · have hst : register_process s rid p =
            { s with byProject := mapUpd s.byProject pn { active with proc := some p } } := by
          simp [register_process, hr, hb, ha]
        rw [hst]
        exact inv_upd_same_rid s h pn active _ hb rfl
      · have hst : register_process s rid p = s := by simp [register_process, hr, hb, ha]
        rw [hst]; exact h

/-- Release preserves the agreement invariant. -/
theorem inv_unregister (s : RegistryState) (h : RegistryInv s)
    (rid : String) : RegistryInv (unregister_request s rid) := by
  cases hr : s.reqToProject rid with
  | none =>
    have hst : unregister_request s rid = s := by simp [unregister_request, hr]
    rw [hst]; exact h
  | some pn =>
    cases hb : s.byProject pn with
    | none =>
      exfalso
      rcases (h rid pn).mp hr with ⟨rec, hrec, _⟩
      rw [hb] at hrec
      cases hrec
    | some active =>
      have ha : active.request_id = rid := by
        rcases (h rid pn).mp hr with ⟨rec, hrec, hri⟩
        rw [hb] at hrec
        injection hrec with hrec
        rw [hrec]
        exact hri
      have hst : unregister_request s rid =
          { s with reqToProject := mapDel s.reqToProject rid,
                   byProject := mapDel s.byProject pn } := by
        simp [unregister_request, hr, hb, ha]
      rw [hst]
      intro r q
      simp only [mapDel]
      constructor
      · intro hq
        by_cases hrr : r = rid
        · rw [if_pos hrr] at hq
          cases hq
        · rw [if_neg hrr] at hq
          rcases (h r q).mp hq with ⟨rec, hrec, hrid2⟩
          by_cases hqq : q = pn
          · exfalso
            subst hqq
            rw [hb] at hrec
            injection hrec with hrec
            subst hrec
            exact hrr (by rw [← hrid2, ha])
          · exact ⟨rec, by rw [if_neg hqq]; exact hrec, hrid2⟩
      · rintro ⟨rec, hrec, hrid2⟩
        by_cases hqq : q = pn
        · rw [if_pos hqq] at hrec
          cases hrec
        · rw [if_neg hqq] at hrec
          have hsr : s.reqToProject r = some q := (h r q).mpr ⟨rec, hrec, hrid2⟩
          by_cases hrr : r = rid
          · exfalso
            subst hrr
            rw [hr] at hsr
            injection hsr with hsr
            exact hqq hsr.symm
          · rw [if_neg hrr]
            exact hsr

/-- Cancellation preserves the agreement invariant. -/
theorem inv_cancel (s : RegistryState) (h : RegistryInv s)
    (rid : String) : RegistryInv (cancel_request s rid).2 := by
  cases hr : s.reqToProject rid with
  | none =>
    have hst : (cancel_request s rid).2 = s := by simp [cancel_request, hr]
    rw [hst]; exact h
  | some pn =>
    cases hb : s.byProject pn with
    | none =>
      have hst : (cancel_request s rid).2 = s := by simp [cancel_request, hr, hb]
      rw [hst]; exact h
    | some active =>
      by_cases ha : active.request_id = rid
      · cases hp : active.proc with
        | none =>
          have hst : (cancel_request s rid).2 =
              { s with byProject := mapUpd s.byProject pn { active with cancelled := true } } := by
            simp [cancel_request, hr, hb, ha, hp]
          rw [hst]
          exact inv_upd_same_rid s h pn active _ hb rfl
        | some p =>
          cases hpr : p.running with
          | true =>
            have hst : (cancel_request s rid).2 =
                { s with byProject := mapUpd s.byProject pn { active with cancelled := true, proc := some ⟨false⟩ } } := by
              simp [cancel_request, hr, hb, ha, hp, hpr]
            rw [hst]
            exact inv_upd_same_rid s h pn active _ hb rfl
          | false =>
            have hst : (cancel_request s rid).2 =
                { s with byProject := mapUpd s.byProject pn { active with cancelled := true } } := by
              simp [cancel_request, hr, hb, ha, hp, hpr]
            rw [hst]
            exact inv_upd_same_rid s h pn active _ hb rfl
      · have hst : (cancel_request s rid).2 = s := by simp [cancel_request, hr, hb, ha]
        rw [hst]; exact h

/-- Every reachable registry state satisfies the agreement invariant. -/
theorem reachable_inv (s : RegistryState) (h : Reachable s) : RegistryInv s := by
  induction h with
  | empty => exact registryInv_empty
  | register s pn rid _ ih => exact inv_try_register s ih pn rid
  | attach s rid p _ ih => exact inv_register_process s ih rid p
  | unregister s rid _ ih => exact inv_unregister s ih rid
  | cancel s rid _ ih => exact inv_cancel s ih rid

/-- C10: each of the four registry operations preserves the agreement
invariant between the project-indexed table and the submission-id-indexed
table. -/
theorem registry_ops_preserve_inv (s : RegistryState) (h : RegistryInv s) :
    (∀ pn rid, RegistryInv (try_register_request s pn rid).2)
    ∧ (∀ rid p, RegistryInv (register_process s rid p))
    ∧ (∀ rid, RegistryInv (unregister_request s rid))
    ∧ (∀ rid, RegistryInv (cancel_request s rid).2) :=
  ⟨fun pn rid => inv_try_register s h pn rid,
   fun rid p => inv_register_process s h rid p,
   fun rid => inv_unregister s h rid,
   fun rid => inv_cancel s h rid⟩

/-- C10 (witness): the preservation statement applied to the empty registry. -/
theorem registry_ops_preserve_inv_witness :
    RegistryInv (try_register_request emptyRegistry "toml" "r1").2 :=
  (registry_ops_preserve_inv emptyRegistry registryInv_empty).1 "toml" "r1"

/-- C2: in every reachable registry state, the project table holds at most one
record per project id and at most one record per submission id; and
`try_register_request` succeeds with a fresh cancellation handle (flag unset,
no child attached) exactly when both keys are free, returns a `project_busy`
conflict naming the holder's submission id when the project is held, and
returns a `request_id_busy` conflict when the submission id is in use — the
holding project then necessarily differing from the requested one. -/
theorem try_admit_spec (s : RegistryState) (h : Reachable s) :
    (∀ p r1 r2, s.byProject p = some r1 → s.byProject p = some r2 → r1 = r2)
    ∧ (∀ p1 p2 r1 r2, s.byProject p1 = some r1 → s.byProject p2 = some r2 →
        r1.request_id = r2.request_id → p1 = p2)
    ∧ (∀ pn rid,
        (s.byProject (registry_project pn) = none → s.reqToProject rid = none →
          (try_register_request s pn rid).1 = none
          ∧ ∃ rec, (try_register_request s pn rid).2.byProject (registry_project pn) = some rec
              ∧ rec.request_id = rid ∧ rec.cancelled = false ∧ rec.proc = none)
        ∧ (∀ ex, s.byProject (registry_project pn) = some ex →
          (try_register_request s pn rid).1 = some ⟨"project_busy", ex.request_id, registry_project pn⟩
          ∧ (try_register_request s pn rid).2 = s)
        ∧ (∀ p, s.byProject (registry_project pn) = none → s.reqToProject rid = some p →
          (try_register_request s pn rid).1 = some ⟨"request_id_busy", rid, p⟩
          ∧ (try_register_request s pn rid).2 = s
          ∧ p ≠ registry_project pn)) := by
  have hinv := reachable_inv s h
  refine ⟨?_, ?_, ?_⟩
  · intro p r1 r2 h1 h2
    rw [h1] at h2
    injection h2
  · intro p1 p2 r1 r2 h1 h2 he
    have k1 : s.reqToProject r1.request_id = some p1 := (hinv _ _).mpr ⟨r1, h1, rfl⟩
    have k2 : s.reqToProject r1.request_id = some p2 := (hinv _ _).mpr ⟨r2, h2, he.symm⟩
    rw [k1] at k2
    injection k2
  · intro pn rid
    refine ⟨?_, ?_, ?_⟩
    · intro hb hr
      constructor
      · simp [try_register_request, hb, hr]
      · refine ⟨⟨rid, registry_project pn, none, false⟩, ?_, rfl, rfl, rfl⟩
        simp [try_register_request, hb, hr, mapUpd]
    · intro ex hb
      constructor <;> simp [try_register_request, hb]
    · intro p hb hr
      refine ⟨by simp [try_register_request, hb, hr],
              by simp [try_register_request, hb, hr], ?_⟩
      intro hpq
      rcases (hinv rid p).mp hr with ⟨rec, hrec, _⟩
      rw [hpq, hb] at hrec
      cases hrec

/-- C2 (witness): admission on the empty registry succeeds and installs a
fresh handle for `toml`/`r1`. -/
theorem try_admit_spec_witness :
    (try_register_request emptyRegistry "toml" "r1").1 = none
    ∧ ∃ rec, (try_register_request emptyRegistry "toml" "r1").2.byProject (registry_project "toml") = some rec
        ∧ rec.request_id = "r1" ∧ rec.cancelled = false ∧ rec.proc = none :=
  ((try_admit_spec emptyRegistry Reachable.empty).2.2 "toml" "r1").1 rfl rfl

/-- The select loop emits only test-result, summary and keep-alive writes,
never a `done` event. -/
theorem streamLoop_noDone (obs : List Obs) (st : LoopState)
    (h : noDoneB st.trace = true) : noDoneB (streamLoop obs st).trace = true := by
  induction obs generalizing st with
  | nil => simpa [streamLoop] using h
  | cons o rest ih =>
    by_cases hd : st.clientDisconnected = true
    · rw [streamLoop_disconnected _ _ hd]
      exact h
    · rw [Bool.not_eq_true] at hd
      cases o with
      | silence due =>
        cases due with
        | false =>
          rw [streamLoop]
          simp only [hd, Bool.false_eq_true, if_false]
          exact ih st h
        | true =>
          rw [streamLoop]
          simp only [hd, Bool.false_eq_true, if_false]
          by_cases hok : writeOk st.w = true
          · simp only [hok, if_true]
            exact ih _ (by simp [noDoneB_push, h, isDoneEv])
          · rw [Bool.not_eq_true] at hok
            simp only [hok, Bool.false_eq_true, if_false]
            simp [noDoneB_push, h, isDoneEv]
      | lineObs l =>
        cases l with
        | blank =>
          rw [streamLoop]
          simp only [hd, Bool.false_eq_true, if_false]
          exact ih st h
        | malformed =>
          rw [streamLoop]
          simp only [hd, Bool.false_eq_true, if_false]
          exact ih st h
        | testCount n =>
          rw [streamLoop]
          simp only [hd, Bool.false_eq_true, if_false]
          exact ih _ h
        | summaryLine t pa f =>
          rw [streamLoop]
          simp only [hd, Bool.false_eq_true, if_false]
          by_cases hok : writeOk st.w = true
          · simp only [hok, if_true]
            exact ih _ (by simp [noDoneB_push, h, isDoneEv])
          · rw [Bool.not_eq_true] at hok
            simp only [hok, Bool.false_eq_true, if_false]
            simp [noDoneB_push, h, isDoneEv]
        | result r =>
          rw [streamLoop]
          simp only [hd, Bool.false_eq_true, if_false]
          by_cases hok : writeOk st.w = true
          · simp only [hok, if_true]
            exact ih _ (by simp [noDoneB_push, h, isDoneEv])
          · rw [Bool.not_eq_true] at hok
            simp only [hok, Bool.false_eq_true, if_false]
            simp [noDoneB_push, h, isDoneEv]

/-- The streaming incremental runner never writes a `done` event; the terminal
event is the enclosing handler's responsibility. -/
theorem cdclStreaming_noDone (w : WFile) (env : StreamEnv) :
    noDoneB (run_cdcl_test_streaming w env).2.2.1 = true := by
  have hloop := streamLoop_noDone env.obs (initLoopState w)
    (by simp [initLoopState, noDoneB])
  simp only [run_cdcl_test_streaming]
  split
  · simp [noDoneB]
  · split
    · simp [noDoneB]
    · split
      · simpa using hloop
      · split
        · simpa using hloop
        · split
          · simp only []
            rw [noDoneB_push]
            simp [hloop, isDoneEv]
          · split
            · simp only []
              rw [noDoneB_push]
              simp [hloop, isDoneEv]
            · split
              · simpa using hloop
              · split
                · simpa using hloop
                · simpa using hloop

/-- Unfolding of the exactly-one-done predicate on a two-or-more list. -/
theorem endsOne_cons (e e' : SseEvent) (l : List SseEvent) :
    endsWithExactlyOneDone (e :: e' :: l)
      = (!isDoneEv e && endsWithExactlyOneDone (e' :: l)) := rfl

/-- Appending a terminal `done` to a done-free trace yields a trace with
exactly one `done`, in last position. -/
theorem endsOne_append (t : List SseEvent) (b : Bool)
    (h : noDoneB t = true) :
    endsWithExactlyOneDone (t ++ [SseEvent.doneEv b]) = true := by
  induction t with
  | nil => rfl
  | cons e rest ih =>
    simp only [noDoneB, List.all_cons, Bool.and_eq_true] at h
    cases rest with
    | nil =>
      have hstep : endsWithExactlyOneDone [e, SseEvent.doneEv b]
          = (!isDoneEv e && true) := rfl
      rw [List.cons_append, List.nil_append, hstep]
      simp [h.1]
    | cons e2 r2 =>
      have ih2 := ih (by simpa [noDoneB] using h.2)
      simp only [List.cons_append] at ih2 ⊢
      rw [endsOne_cons]
      simp only [ih2, Bool.and_true]
      exact h.1

/-- Emitted error details never include a `done` event. -/
theorem foldl_errorDetail_noDone (errs : List String) (o : SseOut)
    (h : noDoneB o.trace = true) :
    noDoneB (errs.foldl (fun o m => sseEmit o (SseEvent.errorDetail m)) o).trace = true := by
  induction errs generalizing o with
  | nil => exact h
  | cons m rest ih =>
    exact ih _ (by simp [sseEmit, noDoneB_push, h, isDoneEv])

/-- Concatenation distributes over the done-free predicate. -/
theorem noDoneB_append (a b : List SseEvent) :
    noDoneB (a ++ b) = (noDoneB a && noDoneB b) := by
  simp [noDoneB]

/-- The streaming pipeline handler emits exactly one `done` event, as the last
event of its trace, on every return path. -/
theorem handler_stream_done (w : WFile) (req : SubmitRequest) (env : SubmitEnv) :
    endsWithExactlyOneDone (handle_proj_submit_streaming w req env).2.2.1 = true := by
  have hknd : ∀ (w' : WFile) (x : SseEvent),
      x ∈ (run_cdcl_test_streaming w' env.streamEnv).2.2.1 → isDoneEv x = false := by
    intro w' x hx
    have h0 := cdclStreaming_noDone w' env.streamEnv
    rw [noDoneB, List.all_eq_true] at h0
    have h1 := h0 x hx
    cases hie : isDoneEv x
    · rfl
    · rw [hie] at h1
      exact absurd h1 (by simp)
  unfold handle_proj_submit_streaming finishStream
  by_cases hsrc : env.srcExists = true
  · simp only [hsrc, Bool.not_true, Bool.false_eq_true, if_false]
    by_cases hgate : filterGateFires req env = true
    · simp only [hgate, if_true, sseEmit]
      apply endsOne_append
      rw [noDoneB_push, Bool.and_eq_true]
      refine ⟨?_, by simp [isDoneEv]⟩
      cases req.request_id with
      | none => simp [noDoneB, isDoneEv]
      | some rid => by_cases hrid : rid = "" <;> simp [hrid, noDoneB, isDoneEv]
    · simp only [hgate, Bool.false_eq_true, if_false]
      by_cases hbc : (run_moon_build env.buildEnv).1.status = "cancelled"
      · simp only [hbc, if_true, sseEmit]
        apply endsOne_append
        rw [noDoneB_push, Bool.and_eq_true]
        refine ⟨?_, by simp [isDoneEv]⟩
        cases req.request_id with
        | none => simp [noDoneB, isDoneEv]
        | some rid => by_cases hrid : rid = "" <;> simp [hrid, noDoneB, isDoneEv]
      · simp only [hbc, Bool.false_eq_true, if_false]
        by_cases hbp : (run_moon_build env.buildEnv).1.status = "pass"
        case neg =>
          rw [if_pos (by simpa using hbp)]
          simp only [sseEmit]
          apply endsOne_append
          rw [noDoneB_push, Bool.and_eq_true]
          refine ⟨?_, by simp [isDoneEv]⟩
          cases req.request_id with
          | none => simp [noDoneB, isDoneEv]
          | some rid => by_cases hrid : rid = "" <;> simp [hrid, noDoneB, isDoneEv]
        case pos =>
          rw [if_neg (by simpa using hbp)]
          by_cases hcb : env.cancelledBetween = true
          · simp only [hcb, if_true, sseEmit]
            apply endsOne_append
            rw [noDoneB_push, Bool.and_eq_true]
            refine ⟨?_, by simp [isDoneEv]⟩
            cases req.request_id with
            | none => simp [noDoneB, isDoneEv]
            | some rid => by_cases hrid : rid = "" <;> simp [hrid, noDoneB, isDoneEv]
          · simp only [hcb, Bool.false_eq_true, if_false]
            by_cases hut : uses_try_py env = true
            · simp only [hut, if_true, sseEmit]
              apply endsOne_append
              rw [noDoneB_push, Bool.and_eq_true]
              refine ⟨?_, by simp [isDoneEv]⟩
              cases req.request_id with
              | none =>
                simp [noDoneB, isDoneEv]
                intro x hx
                exact hknd _ x hx
              | some rid =>
                by_cases hrid : rid = "" <;>
                  (simp [hrid, noDoneB, isDoneEv]
                   intro x hx
                   exact hknd _ x hx)
            · simp only [hut, Bool.false_eq_true, if_false]
              simp only [sseEmit]
              apply endsOne_append
              rw [noDoneB_push, Bool.and_eq_true]
              refine ⟨?_, by simp [isDoneEv]⟩
              cases hsum : (run_moon_test env.moonEnv).1.summary with
              | some s =>
                cases herr : (run_moon_test env.moonEnv).1.errors with
                | some errs =>
                  refine foldl_errorDetail_noDone errs _ ?_
                  cases req.request_id with
                  | none => simp [sseEmit, noDoneB, isDoneEv]
                  | some rid =>
                    by_cases hrid : rid = "" <;> simp [hrid, sseEmit, noDoneB, isDoneEv]
                | none =>
                  cases req.request_id with
                  | none => simp [sseEmit, noDoneB, isDoneEv]
                  | some rid =>
                    by_cases hrid : rid = "" <;> simp [hrid, sseEmit, noDoneB, isDoneEv]
              | none =>
                cases herr : (run_moon_test env.moonEnv).1.errors with
                | some errs =>
                  refine foldl_errorDetail_noDone errs _ ?_
                  cases req.request_id with
                  | none => simp [sseEmit, noDoneB, isDoneEv]
                  | some rid =>
                    by_cases hrid : rid = "" <;> simp [hrid, sseEmit, noDoneB, isDoneEv]
                | none =>
                  cases req.request_id with
                  | none => simp [sseEmit, noDoneB, isDoneEv]
                  | some rid =>
                    by_cases hrid : rid = "" <;> simp [hrid, sseEmit, noDoneB, isDoneEv]
  · have hb : env.srcExists = false := by
      revert hsrc
      cases env.srcExists <;> simp
    simp only [hb, Bool.not_false, if_true]
    simp [sseEmit, endsWithExactlyOneDone, isDoneEv]

/-- C1: in streaming mode, every `POST /test` request — undecodable body,
admission conflict, injected handler fault, or a full pipeline run over any
environment (including build failure, cancellation, timeout and client
disconnect) — produces a trace with exactly one `done` event, and it is the
last event written. -/
theorem done_event_terminal (env : PostEnv) (w : WFile)
    (h : env.wantsSse = true) :
    endsWithExactlyOneDone (do_POST_test env w).trace = true := by
  unfold do_POST_test
  cases env.body with
  | invalid => simp [h, endsWithExactlyOneDone, isDoneEv]
  | valid req0 =>
    simp only [h, if_true]
    split
    · simp [endsWithExactlyOneDone, isDoneEv]
    · split
      · simp [endsWithExactlyOneDone, isDoneEv]
      · exact handler_stream_done _ _ _

/-- C1 (witness): the terminal-done statement at a concrete streaming request. -/
theorem done_event_terminal_witness :
    endsWithExactlyOneDone
      (do_POST_test { c9postEnvEmpty with wantsSse := true } ⟨none, 0⟩).trace = true :=
  done_event_terminal { c9postEnvEmpty with wantsSse := true } ⟨none, 0⟩ rfl

/-- C9 (counterexample): a submission with an explicitly empty project name is
admitted under `"toml"`, yet the pipeline runs with project name `""`: its
source path degenerates to the client-data root, not `client_data/toml`, and
the response's project field is `""`. -/
theorem default_project_empty_counterexample :
    (do_POST_test c9postEnvEmpty ⟨none, 0⟩).admittedUnder = some "toml"
    ∧ (do_POST_test c9postEnvEmpty ⟨none, 0⟩).outcome =
        some (SubmitOutcome.full (some "r1") "" ⟨"pass", 0, none, "Build succeeded"⟩
          (some ⟨"pass", 0, none, none, "All tests passed", false⟩))
    ∧ submit_src_path ⟨some "r1", some "", none, none, none, none, none⟩ = clientDataDir
    ∧ clientDataDir ≠ clientDataDir ++ ["toml"]
    ∧ ("" : String) ≠ "toml" := by
  refine ⟨by decide, by decide, by decide, by decide, by decide⟩

/-- C9 (amended): a submission that omits the project id gets `"toml"`
substituted at the top of `do_POST`, and admission, materialisation paths,
build and test all use `"toml"`; but a submission with an explicitly empty
project id is admitted under `"toml"` (the registry applies `or "toml"`)
while the pipeline operates under the raw empty name, whose paths collapse to
the data-directory roots. -/
theorem default_project_amended :
    (∀ req : SubmitRequest, req.project_name = none →
      do_post_project req = "toml"
      ∧ registry_project (do_post_project req) = "toml"
      ∧ submit_project { req with project_name := some (do_post_project req) } = "toml"
      ∧ submit_src_path { req with project_name := some (do_post_project req) }
          = clientDataDir ++ ["toml"])
    ∧ (∀ req : SubmitRequest, req.project_name = some "" →
      do_post_project req = ""
      ∧ registry_project (do_post_project req) = "toml"
      ∧ submit_project { req with project_name := some (do_post_project req) } = ""
      ∧ submit_src_path { req with project_name := some (do_post_project req) }
          = clientDataDir)
    ∧ (do_POST_test c9postEnvOmitted ⟨none, 0⟩).admittedUnder = some "toml"
    ∧ (do_POST_test c9postEnvOmitted ⟨none, 0⟩).outcome =
        some (SubmitOutcome.full (some "r1") "toml" ⟨"pass", 0, none, "Build succeeded"⟩
          (some ⟨"pass", 0, none, none, "All tests passed", false⟩)) := by
  refine ⟨?_, ?_, by decide, by decide⟩
  · intro req hp
    refine ⟨?_, ?_, ?_, ?_⟩ <;>
      simp [do_post_project, registry_project, submit_project, submit_src_path,
        pathJoin, hp, clientDataDir]
  · intro req hp
    refine ⟨?_, ?_, ?_, ?_⟩ <;>
      simp [do_post_project, registry_project, submit_project, submit_src_path,
        pathJoin, hp, clientDataDir]

/-- C9 (witness): the amended statement at the concrete omitted-name and
empty-name submissions. -/
theorem default_project_amended_witness :
    (do_post_project c9reqOmitted = "toml"
      ∧ registry_project (do_post_project c9reqOmitted) = "toml"
      ∧ submit_project { c9reqOmitted with project_name := some (do_post_project c9reqOmitted) } = "toml"
      ∧ submit_src_path { c9reqOmitted with project_name := some (do_post_project c9reqOmitted) }
          = clientDataDir ++ ["toml"])
    ∧ (do_post_project c9reqEmpty = ""
      ∧ registry_project (do_post_project c9reqEmpty) = "toml"
      ∧ submit_project { c9reqEmpty with project_name := some (do_post_project c9reqEmpty) } = ""
      ∧ submit_src_path { c9reqEmpty with project_name := some (do_post_project c9reqEmpty) }
          = clientDataDir) :=
  ⟨default_project_amended.1 c9reqOmitted rfl, default_project_amended.2.1 c9reqEmpty rfl⟩
